import Mathlib

/-
  Shallow embedding of the erlang_ale port drivers
  (src/c_src/gpio_port2.c and src/c_src/i2c_port2.c).

  File-system and syscall behaviour is abstracted into an environment
  record (`Env` for the GPIO driver, `I2cEnv` for the I2C driver); each
  operation additionally returns the list of syscall-level events it
  performed, so that claims about which files are touched, and in which
  order, can be stated and proved.
-/

namespace ErlangAle

/-- `enum gpio_state` from gpio_port2.c. -/
inductive gpio_state where
  | GPIO_CLOSED
  | GPIO_OUTPUT
  | GPIO_INPUT
  | GPIO_INPUT_WITH_INTERRUPTS
deriving DecidableEq, Repr

/-- `struct gpio` from gpio_port2.c.  `fd` and `pin_number` are C `int`s
(`-1` when closed); `already_exported` is a C int that only ever holds 0
or 1, modelled as a Bool. -/
structure gpio where
  state : gpio_state
  fd : Int
  pin_number : Int
  already_exported : Bool
deriving DecidableEq, Repr

/-- `gpio_init`: the initial pin structure built at process start. -/
def gpio_init : gpio :=
  ⟨gpio_state.GPIO_CLOSED, -1, -1, false⟩

/-- The sysfs paths the GPIO driver touches, keyed by pin number where
the path is per-pin. -/
inductive SysPath where
  | export
  | unexport
  | direction (pin : Int)
  | value (pin : Int)
  | edge (pin : Int)
deriving DecidableEq, Repr

/-- Syscall-level events performed by the GPIO driver. `writeFile p s`
is one `sysfs_write_file(p, s)` call (open + write + close of a sysfs
file); `openFile` is the `open()` of the value file kept in `pin->fd`. -/
inductive Event where
  | writeFile (p : SysPath) (contents : String)
  | openFile (p : SysPath) (rdwr : Bool)
  | closeFd (fd : Int)
  | pwriteByte (fd : Int) (c : Char)
  | preadByte (fd : Int)
deriving DecidableEq, Repr

/-- Abstraction of the file system / kernel as seen by the GPIO driver:
which files exist, whether each sysfs write goes through, what the
`open`/`pwrite`/`pread` syscalls return. -/
structure Env where
  /-- `access(value_path, F_OK) != -1` for a given pin number. -/
  value_exists : Int → Bool
  /-- `access(direction_path, F_OK) != -1` for a given pin number. -/
  direction_exists : Int → Bool
  /-- whether the open+write inside `sysfs_write_file` succeeds. -/
  sysfs_write_ok : SysPath → String → Bool
  /-- the fd returned by `open(value_path, flags)`: `≥ 0` on success,
  `-1` on failure. -/
  open_value_ret : Int → Bool → Int
  /-- the `ssize_t` returned by `pwrite(fd, buf, 1, 0)`. -/
  pwrite_ret : Int
  /-- the `ssize_t` returned by `pread(fd, buf, 1, 0)`. -/
  pread_ret : Int
  /-- the byte deposited by a successful `pread`. -/
  pread_byte : Char

/-- `sysfs_write_file(pathname, value)`: returns 0 on failure and
`strlen(value)` (i.e. `written`) on success, paired with the event
performed.  Note that a successful write of an empty string also
returns 0, exactly as in the C code. -/
def sysfs_write_file (env : Env) (p : SysPath) (value : String) : Nat × List Event :=
  if env.sysfs_write_ok p value then (value.length, [Event.writeFile p value])
  else (0, [Event.writeFile p value])

/-- Result of a GPIO operation: the pin structure after the call, the C
return value, the syscall events performed, and whether the operation
terminated the process via `err(EXIT_FAILURE, ...)` instead of
returning. -/
structure GRes where
  pin : gpio
  ret : Int
  trace : List Event
  fatal : Bool
deriving Repr

/-- `gpio_release`: no-op on a closed pin; otherwise close the value
descriptor, write the pin number to the unexport file if this instance
exported the pin, and reset the structure. -/
def gpio_release (env : Env) (pin : gpio) : GRes :=
  if pin.state = gpio_state.GPIO_CLOSED then ⟨pin, 1, [], false⟩
  else
    let tr1 : List Event := if pin.fd ≠ -1 then [Event.closeFd pin.fd] else []
    if pin.already_exported = false then
      ⟨⟨gpio_state.GPIO_CLOSED, -1, -1, pin.already_exported⟩, 1,
        tr1 ++ (sysfs_write_file env SysPath.unexport (toString pin.pin_number)).2, false⟩
    else
      ⟨⟨gpio_state.GPIO_CLOSED, -1, -1, pin.already_exported⟩, 1, tr1, false⟩

/-- Last step of `gpio_open`: record the pin number, open the value
file (read-write for an output pin, read-only otherwise), and on
open failure release the pin for cleanup.  The trace returned is the
events of this step only; `gpio_open` concatenates the step traces in
execution order. -/
def gpio_open_value (env : Env) (pin : gpio) (pin_number : Int) : GRes :=
  let pin1 : gpio := { pin with pin_number := pin_number }
  let rdwr : Bool := pin1.state = gpio_state.GPIO_OUTPUT
  let fd : Int := env.open_value_ret pin_number rdwr
  let pin2 : gpio := { pin1 with fd := fd }
  if fd < 0 then
    let rel := gpio_release env pin2
    ⟨rel.pin, -1, Event.openFile (SysPath.value pin_number) rdwr :: rel.trace, false⟩
  else ⟨pin2, 1, [Event.openFile (SysPath.value pin_number) rdwr], false⟩

/-- Middle step of `gpio_open`: if the direction file exists it must be
writable; note the C code has already stored the new state into
`pin->state` before this point. -/
def gpio_open_dir (env : Env) (pin : gpio) (pin_number : Int) (dirstr : String) : GRes :=
  if env.direction_exists pin_number then
    let w := sysfs_write_file env (SysPath.direction pin_number) dirstr
    if w.1 = 0 then ⟨pin, -1, w.2, false⟩
    else
      let r := gpio_open_value env pin pin_number
      ⟨r.pin, r.ret, w.2 ++ r.trace, r.fatal⟩
  else gpio_open_value env pin pin_number

/-- Direction-validation step of `gpio_open`: the direction atom must be
exactly "input" or "output"; the corresponding state is stored into the
pin structure before the direction file is written. -/
def gpio_open_cont (env : Env) (pin : gpio) (pin_number : Int) (dir : String) : GRes :=
  if dir = "input" then
    gpio_open_dir env { pin with state := gpio_state.GPIO_INPUT } pin_number "in"
  else if dir = "output" then
    gpio_open_dir env { pin with state := gpio_state.GPIO_OUTPUT } pin_number "out"
  else ⟨pin, -1, [], false⟩

/-- `gpio_open(pin, pin_number, dir)`: release any currently open pin,
export the pin if its value file does not exist yet (noting ownership in
`already_exported`, which is only assigned after a successful export
write), validate the direction, write the direction file when present,
and open the value file.  Returns 1 for success, -1 for failure.  The C
parameter is `unsigned int`, but the value flows unchanged from
`ERL_INT_VALUE` through `sprintf("%d", ...)`, so it is modelled as the
original `Int`. -/
def gpio_open (env : Env) (pin0 : gpio) (pin_number : Int) (dir : String) : GRes :=
  let rel := if pin0.state ≠ gpio_state.GPIO_CLOSED then gpio_release env pin0
             else ⟨pin0, 1, [], false⟩
  let pin := rel.pin
  if env.value_exists pin_number = false then
    let w := sysfs_write_file env SysPath.export (toString pin_number)
    if w.1 = 0 then ⟨pin, -1, rel.trace ++ w.2, false⟩
    else
      let r := gpio_open_cont env { pin with already_exported := false } pin_number dir
      ⟨r.pin, r.ret, rel.trace ++ w.2 ++ r.trace, r.fatal⟩
  else
    let r := gpio_open_cont env { pin with already_exported := true } pin_number dir
    ⟨r.pin, r.ret, rel.trace ++ r.trace, r.fatal⟩

/-- `gpio_write(pin, val)`: fails (returns -1) without any syscall when
the pin is not in the output state; otherwise pwrites one byte at
offset 0.  The C check `amount_written < sizeof(buf)` compares a
`ssize_t` against a `size_t`, converting the signed value to unsigned,
so the fatal `err()` branch triggers only when `pwrite` returns
exactly 0. -/
def gpio_write (env : Env) (pin : gpio) (val : Int) : GRes :=
  if pin.state ≠ gpio_state.GPIO_OUTPUT then ⟨pin, -1, [], false⟩
  else
    let c : Char := if val ≠ 0 then '1' else '0'
    if env.pwrite_ret = 0 then ⟨pin, 1, [Event.pwriteByte pin.fd c], true⟩
    else ⟨pin, 1, [Event.pwriteByte pin.fd c], false⟩

/-- `gpio_read(pin)`: fails (returns -1) without any syscall when the
pin is closed; otherwise preads one byte at offset 0 and returns 1 iff
the byte is '1'.  As for `gpio_write`, the short-read check compares in
`size_t`, so the fatal branch triggers only on a return value of
exactly 0. -/
def gpio_read (env : Env) (pin : gpio) : GRes :=
  if pin.state = gpio_state.GPIO_CLOSED then ⟨pin, -1, [], false⟩
  else
    if env.pread_ret = 0 then ⟨pin, 0, [Event.preadByte pin.fd], true⟩
    else ⟨pin, (if env.pread_byte = '1' then 1 else 0), [Event.preadByte pin.fd], false⟩

/-- `gpio_set_int(pin, mode)`: writes `mode` to the edge file of the
*stored* pin number — no precondition on the current state — and on a
successful write stores `GPIO_INPUT_WITH_INTERRUPTS`. -/
def gpio_set_int (env : Env) (pin : gpio) (mode : String) : GRes :=
  let w := sysfs_write_file env (SysPath.edge pin.pin_number) mode
  if w.1 = 0 then ⟨pin, -1, w.2, false⟩
  else ⟨{ pin with state := gpio_state.GPIO_INPUT_WITH_INTERRUPTS }, 1, w.2, false⟩

/-- The structured values (ETERMs) exchanged on the command channel, at
the granularity the drivers inspect them.  `null` stands for a NULL
`ETERM*` appearing where a term pointer is used (the dispatcher's
`resp` variable starts as 0 and is formatted into the reply unchanged
when no request branch matches). -/
inductive Term where
  | atom (s : String)
  | int (n : Int)
  | binary (bytes : List Int)
  | tuple (ts : List Term)
  | null
deriving Repr

/-- `erl_element(i, ep)`: the i-th (1-based) element of a tuple, NULL
(`none`) when the term is not a tuple or the index is out of range. -/
def erl_element (i : Nat) : Term → Option Term
  | Term.tuple ts => ts.get? (i - 1)
  | _ => none

/-- `ERL_ATOM_PTR(ep)` as used in string comparisons; on a non-atom the
C macro reads unrelated union fields, modelled as a string that matches
none of the dispatch tags. -/
def atomPtr : Term → String
  | Term.atom s => s
  | _ => ""

/-- `ERL_INT_VALUE(ep)`; on a non-integer term the C macro reads
unrelated union fields, modelled as 0. -/
def intValue : Term → Int
  | Term.int n => n
  | _ => 0

/-- `ERL_BIN_SIZE(ep)`; on a non-binary term modelled as 0. -/
def binSize : Term → Int
  | Term.binary bs => bs.length
  | _ => 0

/-- Result of one dispatcher invocation (or of `gpio_process`): the pin
afterwards, the terms sent with `erlcmd_send`, the syscall events, and
whether the process terminated (via `errx`/`err`, or — for the
unchecked `erl_element` results noted below — a NULL dereference). -/
structure HRes where
  pin : gpio
  sent : List Term
  trace : List Event
  fatal : Bool
deriving Repr

/-- `gpio_process(pin)`: called on POLLPRI readiness; reads the pin and
sends `{gpio_interrupt, rising}` when the read value is non-zero (this
is a level sample: even the -1 of a read on a closed pin selects
`rising`), `{gpio_interrupt, falling}` otherwise. -/
def gpio_process (env : Env) (pin : gpio) : HRes :=
  let r := gpio_read env pin
  if r.fatal then ⟨r.pin, [], r.trace, true⟩
  else if r.ret ≠ 0 then
    ⟨r.pin, [Term.tuple [Term.atom "gpio_interrupt", Term.atom "rising"]], r.trace, false⟩
  else
    ⟨r.pin, [Term.tuple [Term.atom "gpio_interrupt", Term.atom "falling"]], r.trace, false⟩

/-- `gpio_handle_request(emsg, cookie)`: the GPIO command dispatcher.
Branch conditions mirror the C truthiness tests exactly: in particular
`if (gpio_open(...))` and `if (gpio_write(...))` treat the C return
value -1 as *true*, so those error branches are taken only on a zero
return, which the callees never produce. -/
def gpio_handle_request (env : Env) (pin : gpio) (emsg : Term) : HRes :=
  match erl_element 1 emsg with
  | none => ⟨pin, [], [], true⟩
  | some emsg_type =>
    if atomPtr emsg_type = "init" then
      match erl_element 2 emsg, erl_element 3 emsg with
      | some arg1p, some arg2p =>
        let r := gpio_open env pin (intValue arg1p) (atomPtr arg2p)
        if r.ret ≠ 0 then ⟨r.pin, [Term.atom "ok"], r.trace, false⟩
        else ⟨r.pin, [Term.tuple [Term.atom "error", Term.atom "gpio_init_fail"]], r.trace, false⟩
      | _, _ => ⟨pin, [], [], true⟩
    else if atomPtr emsg_type = "cast" then
      match erl_element 2 emsg with
      | none => ⟨pin, [], [], true⟩
      | some arg1p =>
        if atomPtr arg1p = "release" then
          let r := gpio_release env pin
          ⟨r.pin, [], r.trace, false⟩
        else ⟨pin, [], [], true⟩
    else if atomPtr emsg_type = "call" then
      match erl_element 2 emsg, erl_element 3 emsg with
      | some refp, some tuplep =>
        (match erl_element 1 tuplep with
        | none => ⟨pin, [], [], true⟩
        | some fnp =>
          if atomPtr fnp = "write" then
            match erl_element 2 tuplep with
            | none => ⟨pin, [], [], true⟩
            | some arg1p =>
              let r := gpio_write env pin (intValue arg1p)
              if r.fatal then ⟨r.pin, [], r.trace, true⟩
              else if r.ret ≠ 0 then
                ⟨r.pin, [Term.tuple [Term.atom "port_reply", refp, Term.atom "ok"]], r.trace, false⟩
              else
                ⟨r.pin, [Term.tuple [Term.atom "port_reply", refp,
                  Term.tuple [Term.atom "error", Term.atom "gpio_write_failed"]]], r.trace, false⟩
          else if atomPtr fnp = "read" then
            let r := gpio_read env pin
            if r.fatal then ⟨r.pin, [], r.trace, true⟩
            else if r.ret ≠ -1 then
              ⟨r.pin, [Term.tuple [Term.atom "port_reply", refp, Term.int r.ret]], r.trace, false⟩
            else
              ⟨r.pin, [Term.tuple [Term.atom "port_reply", refp,
                Term.tuple [Term.atom "error", Term.atom "gpio_read_failed"]]], r.trace, false⟩
          else if atomPtr fnp = "set_int" then
            -- the C code omits the NULL check on erl_element(2, tuplep) here;
            -- a missing argument dereferences NULL, modelled as termination
            match erl_element 2 tuplep with
            | none => ⟨pin, [], [], true⟩
            | some arg1p =>
              let r := gpio_set_int env pin (atomPtr arg1p)
              if r.ret ≠ 0 then
                ⟨r.pin, [Term.tuple [Term.atom "port_reply", refp, Term.atom "ok"]], r.trace, false⟩
              else
                ⟨r.pin, [Term.tuple [Term.atom "port_reply", refp,
                  Term.tuple [Term.atom "error", Term.atom "gpio_set_int_failed"]]], r.trace, false⟩
          else
            -- no branch matched: resp is still the NULL pointer, and the
            -- reply {port_reply, Ref, NULL} is formatted and sent anyway —
            -- there is no errx on this path
            ⟨pin, [Term.tuple [Term.atom "port_reply", refp, Term.null]], [], false⟩)
      | _, _ => ⟨pin, [], [], true⟩
    else ⟨pin, [], [], true⟩

-- The event loop (main() of gpio_port2.c)

def STDIN_FILENO : Int := 0

/-- The two poll event kinds the loop uses. -/
inductive PollKind where
  | pollin
  | pollpri
deriving DecidableEq, Repr

/-- The `nfds` argument passed to `poll`: both entries only when
interrupts are armed. -/
def poll_nfds (pin : gpio) : Nat :=
  if pin.state = gpio_state.GPIO_INPUT_WITH_INTERRUPTS then 2 else 1

/-- The (fd, events) pairs poll actually monitors on one iteration:
`fdset` truncated to `nfds`. -/
def poll_watch_set (pin : gpio) : List (Int × PollKind) :=
  List.take (poll_nfds pin) [(STDIN_FILENO, PollKind.pollin), (pin.fd, PollKind.pollpri)]

/-- Outcome of one `poll` call: readiness flags, or -1 with
errno = EINTR, or -1 with another errno. -/
inductive PollOutcome where
  | ready (stdin_in_or_hup : Bool) (pin_pri : Bool)
  | interrupted
  | failed
deriving DecidableEq, Repr

/-- What one loop iteration does after `poll` returns. -/
inductive IterAction where
  /-- `continue`: go straight back to `poll`, nothing else happens. -/
  | retry
  /-- `err(EXIT_FAILURE, "poll")`. -/
  | fatalPoll
  /-- run `erlcmd_process` and/or `gpio_process` as flagged. -/
  | handle (run_erlcmd : Bool) (run_gpio_process : Bool)
deriving DecidableEq, Repr

/-- One iteration of the event loop, as a function of the poll outcome.
`fdset[1].revents` is zero-initialised and only written by `poll` when
`nfds = 2`, so POLLPRI readiness is acted on only when the state is
`GPIO_INPUT_WITH_INTERRUPTS`. -/
def loop_iter (pin : gpio) (po : PollOutcome) : IterAction :=
  match po with
  | PollOutcome.interrupted => IterAction.retry
  | PollOutcome.failed => IterAction.fatalPoll
  | PollOutcome.ready s p =>
      IterAction.handle s (p && decide (pin.state = gpio_state.GPIO_INPUT_WITH_INTERRUPTS))

-- The I2C driver (i2c_port2.c)

/-- `struct i2c_info`. -/
structure i2c_info where
  fd : Int
  addr : Int
deriving DecidableEq, Repr

/-- Syscall-level events of the I2C driver.  `allocBuf` is the
`char data[len]` variable-length array (with the *signed* length);
`writeBytes`/`readBytes` carry the length as the `unsigned int`
value the syscall receives. -/
inductive IEvent where
  | writeBytes (fd : Int) (len : Int)
  | allocBuf (len : Int)
  | readBytes (fd : Int) (len : Int)
deriving DecidableEq, Repr

/-- Abstraction of the kernel as seen by the I2C driver. -/
structure I2cEnv where
  /-- the `ssize_t` returned by `write(fd, data, len)`. -/
  write_ret : Int
  /-- the `ssize_t` returned by `read(fd, data, len)`. -/
  read_ret : Int
  /-- the bytes deposited in the buffer by `read`. -/
  read_data : List Int

/-- `I2C_SMBUS_BLOCK_MAX` from linux/i2c.h. -/
def I2C_SMBUS_BLOCK_MAX : Int := 32

/-- `i2c_write(i2c, data, len)`: 1 if the write transferred exactly
`len` bytes, -1 otherwise.  `len` is the `unsigned int` the syscall
receives; the comparison `write(...) != len` promotes it to the
64-bit signed type of `ssize_t`. -/
def i2c_write (env : I2cEnv) (i2c : i2c_info) (len : Int) : Int × List IEvent :=
  if env.write_ret ≠ len then (-1, [IEvent.writeBytes i2c.fd len])
  else (1, [IEvent.writeBytes i2c.fd len])

/-- `i2c_read(i2c, data, len)`: 1 if the read transferred exactly `len`
bytes, -1 otherwise. -/
def i2c_read (env : I2cEnv) (i2c : i2c_info) (len : Int) : Int × List IEvent :=
  if env.read_ret ≠ len then (-1, [IEvent.readBytes i2c.fd len])
  else (1, [IEvent.readBytes i2c.fd len])

/-- Result of one I2C dispatcher invocation. -/
structure IRes where
  i2c : i2c_info
  sent : List Term
  trace : List IEvent
  fatal : Bool
deriving Repr

/-- `i2c_handle_request(emsg, cookie)`: the I2C command dispatcher.
The read-length guard `len > I2C_SMBUS_BLOCK_MAX` is a signed `int`
comparison; a length that passes it is used for the VLA with its
signed value and for `i2c_read` converted to `unsigned int`
(`len mod 2^32`). -/
def i2c_handle_request (env : I2cEnv) (i2c : i2c_info) (emsg : Term) : IRes :=
  match erl_element 1 emsg with
  | none => ⟨i2c, [], [], true⟩
  | some emsg_type =>
    if atomPtr emsg_type = "i2c_write" then
      match erl_element 2 emsg with
      | none => ⟨i2c, [], [], true⟩  -- unchecked NULL from erl_element, modelled as termination
      | some edata =>
        let r := i2c_write env i2c (binSize edata)
        ⟨i2c, [Term.int r.1], r.2, false⟩
    else if atomPtr emsg_type = "i2c_read" then
      match erl_element 2 emsg with
      | none => ⟨i2c, [], [], true⟩  -- unchecked NULL from erl_element, modelled as termination
      | some elen =>
        let len := intValue elen
        if len > I2C_SMBUS_BLOCK_MAX then ⟨i2c, [], [], true⟩
        else
          let r := i2c_read env i2c (Int.emod len (2 ^ 32))
          if r.1 < 0 then
            ⟨i2c, [Term.int (-1)], IEvent.allocBuf len :: r.2, false⟩
          else
            ⟨i2c, [Term.binary (env.read_data.take len.toNat)], IEvent.allocBuf len :: r.2, false⟩
    else ⟨i2c, [], [], true⟩

-- Specification-level definitions over the model

/-- The spec's data-model invariant: the value descriptor is open
(`fd ≥ 0`; the code stores -1, or the -1 of a failed `open`, when it
holds no descriptor) iff the state is not Closed. -/
def gpio_inv (pin : gpio) : Prop :=
  0 ≤ pin.fd ↔ pin.state ≠ gpio_state.GPIO_CLOSED

instance (pin : gpio) : Decidable (gpio_inv pin) := by
  unfold gpio_inv; infer_instance

/-- The spec's `ownsExport` field is the negation of the C
`already_exported` flag. -/
def ownsExport (pin : gpio) : Bool :=
  !pin.already_exported

/-- Is an event a write to the export control file? -/
def isExportWrite : Event → Bool
  | Event.writeFile SysPath.export _ => true
  | _ => false

/-- Is an event an access to one of the pin-configuration control files
(export, direction, value, edge) — as opposed to the descriptor close
and unexport write that `gpio_release` performs as cleanup? -/
def isConfigAccess : Event → Bool
  | Event.writeFile SysPath.export _ => true
  | Event.writeFile (SysPath.direction _) _ => true
  | Event.writeFile (SysPath.value _) _ => true
  | Event.writeFile (SysPath.edge _) _ => true
  | Event.openFile _ _ => true
  | _ => false

/-- The one situation in which `gpio_open` leaves the pin structure
inconsistent: the direction atom is valid, the direction file exists,
and writing it fails — the new state has already been stored but no
descriptor will be opened. -/
def dir_write_breaks (env : Env) (n : Int) (dir : String) : Prop :=
  (dir = "input" ∨ dir = "output")
  ∧ env.direction_exists n = true
  ∧ (sysfs_write_file env (SysPath.direction n) (if dir = "input" then "in" else "out")).1 = 0

instance (env : Env) (n : Int) (dir : String) : Decidable (dir_write_breaks env n dir) := by
  unfold dir_write_breaks; infer_instance

-- Concrete environments and pins used in witnesses and counterexamples

/-- An environment in which every file exists and every syscall
succeeds. -/
def envAllOk : Env where
  value_exists := fun _ => true
  direction_exists := fun _ => true
  sysfs_write_ok := fun _ _ => true
  open_value_ret := fun _ _ => 3
  pwrite_ret := 1
  pread_ret := 1
  pread_byte := '1'

/-- Like `envAllOk`, except that writing any direction file fails
(e.g. with EACCES). -/
def envDirWriteFails : Env where
  value_exists := fun _ => true
  direction_exists := fun _ => true
  sysfs_write_ok := fun p _ => match p with | SysPath.direction _ => false | _ => true
  open_value_ret := fun _ _ => 3
  pwrite_ret := 1
  pread_ret := 1
  pread_byte := '1'

/-- An environment in which no pin is exported yet (no value file) and
every sysfs write fails. -/
def envExportFails : Env where
  value_exists := fun _ => false
  direction_exists := fun _ => true
  sysfs_write_ok := fun _ _ => false
  open_value_ret := fun _ _ => 3
  pwrite_ret := 1
  pread_ret := 1
  pread_byte := '1'

/-- An environment in which no pin is exported yet and every syscall
succeeds. -/
def envNoValueOk : Env where
  value_exists := fun _ => false
  direction_exists := fun _ => true
  sysfs_write_ok := fun _ _ => true
  open_value_ret := fun _ _ => 3
  pwrite_ret := 1
  pread_ret := 1
  pread_byte := '1'

/-- A pin opened as input on GPIO 4 whose value file already existed
(reached e.g. by `gpio_open envAllOk gpio_init 4 "input"`). -/
def pinInput : gpio :=
  ⟨gpio_state.GPIO_INPUT, 3, 4, true⟩

/-- A pin opened as output on GPIO 4 whose value file already existed. -/
def pinOutput : gpio :=
  ⟨gpio_state.GPIO_OUTPUT, 3, 4, true⟩

/-- A closed pin left over from a lifetime in which the pin was already
exported (`already_exported` still 1), reached by opening and then
releasing a pin whose value file existed. -/
def pinPrevExported : gpio :=
  ⟨gpio_state.GPIO_CLOSED, -1, -1, true⟩

/-- A concrete I2C device handle. -/
def i2cDev : i2c_info :=
  ⟨3, 32⟩

/-- A concrete I2C environment: `write` transfers 3 bytes, `read`
transfers 4 bytes depositing the listed data. -/
def i2cEnvA : I2cEnv :=
  ⟨3, 4, [10, 20, 30, 40]⟩

-- Helper lemmas

theorem sysfs_fst (env : Env) (p : SysPath) (s : String) :
    (sysfs_write_file env p s).1 = if env.sysfs_write_ok p s then s.length else 0 := by
  unfold sysfs_write_file; split <;> rfl

theorem sysfs_snd (env : Env) (p : SysPath) (s : String) :
    (sysfs_write_file env p s).2 = [Event.writeFile p s] := by
  unfold sysfs_write_file; split <;> rfl

-- C6: set_interrupt transitions to InputWithInterrupts iff the edge write succeeds

/-- C6: `set_interrupt(mode)` transitions the state to
`GPIO_INPUT_WITH_INTERRUPTS` if and only if the write to the edge
control file succeeds (`sysfs_write_file` returns non-zero); when that
write fails, -1 is returned and the pin structure — in particular its
state — is exactly what it was before the call. -/
theorem c6_set_interrupt_iff (env : Env) (pin : gpio) (mode : String) :
    ((sysfs_write_file env (SysPath.edge pin.pin_number) mode).1 ≠ 0 →
      (gpio_set_int env pin mode).pin = { pin with state := gpio_state.GPIO_INPUT_WITH_INTERRUPTS }
      ∧ (gpio_set_int env pin mode).ret = 1)
    ∧ ((sysfs_write_file env (SysPath.edge pin.pin_number) mode).1 = 0 →
      (gpio_set_int env pin mode).pin = pin ∧ (gpio_set_int env pin mode).ret = -1) := by
  constructor
  · intro h
    simp [gpio_set_int, if_neg h]
  · intro h
    simp [gpio_set_int, if_pos h]

/-- Witness for C6 at a concrete input pin and a succeeding edge write. -/
theorem c6_witness :
    (gpio_set_int envAllOk pinInput "rising").pin
      = { pinInput with state := gpio_state.GPIO_INPUT_WITH_INTERRUPTS }
    ∧ (gpio_set_int envAllOk pinInput "rising").ret = 1 :=
  (c6_set_interrupt_iff envAllOk pinInput "rising").1 (by decide)

-- C9: set_interrupt checks no precondition on the state

/-- C9: `gpio_set_int` performs exactly one write, to the edge file
path derived from the *stored* pin number, whatever the current state
is (no precondition is checked — the pin may be Closed, with pin
number -1, or Output); whenever that write succeeds the state becomes
`GPIO_INPUT_WITH_INTERRUPTS`, so the transition is not restricted to
starting from `GPIO_INPUT`. -/
theorem c9_set_int_unconditional (env : Env) (pin : gpio) (mode : String) :
    (gpio_set_int env pin mode).trace = [Event.writeFile (SysPath.edge pin.pin_number) mode]
    ∧ ((sysfs_write_file env (SysPath.edge pin.pin_number) mode).1 ≠ 0 →
        (gpio_set_int env pin mode).pin.state = gpio_state.GPIO_INPUT_WITH_INTERRUPTS
        ∧ (gpio_set_int env pin mode).ret = 1) := by
  constructor
  · simp only [gpio_set_int]
    split <;> simp [sysfs_snd]
  · intro h
    simp [gpio_set_int, if_neg h]

/-- Witness for C9: invoked on the freshly initialised (Closed) pin,
whose stored pin number is -1, the edge write targets
`/sys/class/gpio/gpio-1/edge`, and on success the state still becomes
`GPIO_INPUT_WITH_INTERRUPTS`. -/
theorem c9_witness :
    (gpio_set_int envAllOk gpio_init "both").trace
      = [Event.writeFile (SysPath.edge (-1)) "both"]
    ∧ (gpio_set_int envAllOk gpio_init "both").pin.state
      = gpio_state.GPIO_INPUT_WITH_INTERRUPTS
    ∧ (gpio_set_int envAllOk gpio_init "both").ret = 1 := by
  have h := c9_set_int_unconditional envAllOk gpio_init "both"
  exact ⟨h.1, (h.2 (by decide)).1, (h.2 (by decide)).2⟩

-- C8: the event loop's wait set and EINTR handling

/-- C8: on every iteration the wait set contains the command channel's
input (stdin, POLLIN); it contains the hardware interrupt descriptor
(pin.fd, POLLPRI) if and only if the state is
`GPIO_INPUT_WITH_INTERRUPTS`; and a wait interrupted by signal delivery
(EINTR) is retried with no other action. -/
theorem c8_event_loop (pin : gpio) :
    (STDIN_FILENO, PollKind.pollin) ∈ poll_watch_set pin
    ∧ ((pin.fd, PollKind.pollpri) ∈ poll_watch_set pin
        ↔ pin.state = gpio_state.GPIO_INPUT_WITH_INTERRUPTS)
    ∧ loop_iter pin PollOutcome.interrupted = IterAction.retry := by
  refine ⟨?_, ?_, rfl⟩
  · unfold poll_watch_set poll_nfds
    split <;> simp
  · unfold poll_watch_set poll_nfds
    split
    case isTrue h => simp [h]
    case isFalse h => simp [h]

/-- Witness for C8 at a concrete pin in the plain-Input state: stdin is
watched, the interrupt descriptor is not, EINTR retries. -/
theorem c8_witness :
    (STDIN_FILENO, PollKind.pollin) ∈ poll_watch_set pinInput
    ∧ ((pinInput.fd, PollKind.pollpri) ∈ poll_watch_set pinInput
        ↔ pinInput.state = gpio_state.GPIO_INPUT_WITH_INTERRUPTS)
    ∧ loop_iter pinInput PollOutcome.interrupted = IterAction.retry :=
  c8_event_loop pinInput

-- C7 / C10: the i2c_read length guard

/-- Evaluation of the dispatcher on an `{i2c_read, Len}` request, as a
case split on the guard and on the read outcome. -/
theorem i2c_read_eval (env : I2cEnv) (i2c : i2c_info) (L : Int) :
    i2c_read env i2c L = (if env.read_ret = L then 1 else -1, [IEvent.readBytes i2c.fd L]) := by
  unfold i2c_read
  by_cases h : env.read_ret = L
  · rw [if_neg (by simp [h]), if_pos h]
  · rw [if_pos h, if_neg h]

theorem i2c_read_request_eval (env : I2cEnv) (i2c : i2c_info) (len : Int) :
    i2c_handle_request env i2c (Term.tuple [Term.atom "i2c_read", Term.int len]) =
      if len > I2C_SMBUS_BLOCK_MAX then ⟨i2c, [], [], true⟩
      else if env.read_ret = Int.emod len (2 ^ 32) then
        ⟨i2c, [Term.binary (env.read_data.take len.toNat)],
          [IEvent.allocBuf len, IEvent.readBytes i2c.fd (Int.emod len (2 ^ 32))], false⟩
      else
        ⟨i2c, [Term.int (-1)],
          [IEvent.allocBuf len, IEvent.readBytes i2c.fd (Int.emod len (2 ^ 32))], false⟩ := by
  simp only [i2c_handle_request, erl_element, atomPtr, intValue, List.get?]
  rw [if_neg (by decide : ¬("i2c_read" : String) = "i2c_write")]
  simp only [if_true]
  split
  · rfl
  · rw [i2c_read_eval]
    by_cases hr : env.read_ret = Int.emod len (2 ^ 32)
    · rw [if_pos hr, if_neg (show ¬(1 : Int) < 0 by norm_num), if_pos hr]
    · rw [if_neg hr, if_pos (show (-1 : Int) < 0 by norm_num), if_neg hr]

/-- C7: an `i2c_read(len)` request with `len > I2C_SMBUS_BLOCK_MAX` is
fatal and performs no syscall at all (in particular no read); with
`len` within the limit the read syscall is issued, and the reply is the
bytes read when the read transfers the full length, or the integer -1
otherwise. -/
theorem c7_i2c_read_guard (env : I2cEnv) (i2c : i2c_info) (len : Int) :
    (len > I2C_SMBUS_BLOCK_MAX →
      (i2c_handle_request env i2c (Term.tuple [Term.atom "i2c_read", Term.int len])).fatal = true
      ∧ (i2c_handle_request env i2c (Term.tuple [Term.atom "i2c_read", Term.int len])).trace = [])
    ∧ (len ≤ I2C_SMBUS_BLOCK_MAX →
      (i2c_handle_request env i2c (Term.tuple [Term.atom "i2c_read", Term.int len])).fatal = false
      ∧ (i2c_handle_request env i2c (Term.tuple [Term.atom "i2c_read", Term.int len])).trace
          = [IEvent.allocBuf len, IEvent.readBytes i2c.fd (Int.emod len (2 ^ 32))]
      ∧ (env.read_ret = Int.emod len (2 ^ 32) →
          (i2c_handle_request env i2c (Term.tuple [Term.atom "i2c_read", Term.int len])).sent
            = [Term.binary (env.read_data.take len.toNat)])
      ∧ (env.read_ret ≠ Int.emod len (2 ^ 32) →
          (i2c_handle_request env i2c (Term.tuple [Term.atom "i2c_read", Term.int len])).sent
            = [Term.int (-1)])) := by
  rw [i2c_read_request_eval]
  constructor
  · intro h
    rw [if_pos h]
    exact ⟨rfl, rfl⟩
  · intro h
    rw [if_neg (by omega : ¬ len > I2C_SMBUS_BLOCK_MAX)]
    by_cases hr : env.read_ret = Int.emod len (2 ^ 32)
    · rw [if_pos hr]
      exact ⟨rfl, rfl, fun _ => rfl, fun hc => absurd hr hc⟩
    · rw [if_neg hr]
      exact ⟨rfl, rfl, fun hc => absurd hc hr, fun _ => rfl⟩

/-- Witness for C7: a 33-byte request is fatal with no syscall; a
4-byte request in an environment whose read transfers 4 bytes replies
with the data. -/
theorem c7_witness :
    (i2c_handle_request i2cEnvA i2cDev (Term.tuple [Term.atom "i2c_read", Term.int 33])).fatal = true
    ∧ (i2c_handle_request i2cEnvA i2cDev (Term.tuple [Term.atom "i2c_read", Term.int 33])).trace = []
    ∧ (i2c_handle_request i2cEnvA i2cDev (Term.tuple [Term.atom "i2c_read", Term.int 4])).sent
        = [Term.binary [10, 20, 30, 40]] := by
  have h33 := (c7_i2c_read_guard i2cEnvA i2cDev 33).1 (by decide)
  have h4 := ((c7_i2c_read_guard i2cEnvA i2cDev 4).2 (by decide)).2.2.1 (by decide)
  exact ⟨h33.1, h33.2, h4⟩

/-- C10: the fatal guard on `i2c_read` is the signed comparison
`len > I2C_SMBUS_BLOCK_MAX` — the request is fatal iff the decoded
length is strictly greater than the block maximum; in particular a zero
or negative length passes the guard and reaches the buffer allocation
(`char data[len]` with the signed length) and the read syscall. -/
theorem c10_signed_guard (env : I2cEnv) (i2c : i2c_info) (len : Int) :
    ((i2c_handle_request env i2c (Term.tuple [Term.atom "i2c_read", Term.int len])).fatal = true
      ↔ len > I2C_SMBUS_BLOCK_MAX)
    ∧ (len ≤ 0 →
      IEvent.allocBuf len
        ∈ (i2c_handle_request env i2c (Term.tuple [Term.atom "i2c_read", Term.int len])).trace
      ∧ IEvent.readBytes i2c.fd (Int.emod len (2 ^ 32))
        ∈ (i2c_handle_request env i2c (Term.tuple [Term.atom "i2c_read", Term.int len])).trace) := by
  rw [i2c_read_request_eval]
  constructor
  · by_cases h : len > I2C_SMBUS_BLOCK_MAX
    · rw [if_pos h]; simp [h]
    · rw [if_neg h]
      split <;> simp [h]
  · intro h
    rw [if_neg (by unfold I2C_SMBUS_BLOCK_MAX; omega : ¬ len > I2C_SMBUS_BLOCK_MAX)]
    split <;> simp

/-- Witness for C10 at length -3: not fatal, and both the VLA
allocation with the signed length and the read with the wrapped
unsigned length (2^32 - 3) happen. -/
theorem c10_witness :
    ((i2c_handle_request i2cEnvA i2cDev (Term.tuple [Term.atom "i2c_read", Term.int (-3)])).fatal = true
      ↔ (-3 : Int) > I2C_SMBUS_BLOCK_MAX)
    ∧ IEvent.allocBuf (-3)
        ∈ (i2c_handle_request i2cEnvA i2cDev (Term.tuple [Term.atom "i2c_read", Term.int (-3)])).trace
    ∧ IEvent.readBytes i2cDev.fd 4294967293
        ∈ (i2c_handle_request i2cEnvA i2cDev (Term.tuple [Term.atom "i2c_read", Term.int (-3)])).trace := by
  have h := c10_signed_guard i2cEnvA i2cDev (-3)
  have h2 := h.2 (by decide)
  exact ⟨h.1, h2.1, h2.2⟩

-- C2: the init reply (code bug: C truthiness on gpio_open's -1)

/-- C2 failing input: `init(4, bogus)` — the direction atom is neither
`input` nor `output`, so `gpio_open` fails with -1; but the dispatcher
tests `if (gpio_open(...))`, which treats -1 as true, so the reply sent
is `ok`, not `{error, gpio_init_fail}` — that error branch is
unreachable, since `gpio_open` only ever returns 1 or -1, both
non-zero. -/
theorem c2_init_reply_bug :
    (gpio_open envAllOk gpio_init 4 "bogus").ret = -1
    ∧ (gpio_handle_request envAllOk gpio_init
        (Term.tuple [Term.atom "init", Term.int 4, Term.atom "bogus"])).sent
        = [Term.atom "ok"]
    ∧ (gpio_handle_request envAllOk gpio_init
        (Term.tuple [Term.atom "init", Term.int 4, Term.atom "bogus"])).fatal = false :=
  ⟨rfl, rfl, rfl⟩

-- C4: the write reply (same code bug on gpio_write's -1)

/-- C4 failing input: `call(99, write(1))` on a pin in the Input state —
`gpio_write` returns -1 and performs no syscall (that part of the claim
holds), but the dispatcher's `if (gpio_write(...))` treats -1 as true,
so the reply is `{port_reply, 99, ok}`, not
`{port_reply, 99, {error, gpio_write_failed}}`; on an Output pin with a
successful byte write the reply is `ok` as claimed. -/
theorem c4_write_reply_bug :
    (gpio_write envAllOk pinInput 1).ret = -1
    ∧ (gpio_write envAllOk pinInput 1).trace = []
    ∧ (gpio_handle_request envAllOk pinInput
        (Term.tuple [Term.atom "call", Term.int 99, Term.tuple [Term.atom "write", Term.int 1]])).sent
        = [Term.tuple [Term.atom "port_reply", Term.int 99, Term.atom "ok"]]
    ∧ (gpio_handle_request envAllOk pinOutput
        (Term.tuple [Term.atom "call", Term.int 99, Term.tuple [Term.atom "write", Term.int 1]])).sent
        = [Term.tuple [Term.atom "port_reply", Term.int 99, Term.atom "ok"]] :=
  ⟨rfl, rfl, rfl, rfl⟩

-- C3: unknown message variants

theorem gpio_release_ae (env : Env) (pin : gpio) :
    (gpio_release env pin).pin.already_exported = pin.already_exported := by
  unfold gpio_release
  split
  · rfl
  · split <;> split <;> rfl

theorem gpio_open_value_ae (env : Env) (pin : gpio) (n : Int) :
    (gpio_open_value env pin n).pin.already_exported = pin.already_exported := by
  simp only [gpio_open_value]
  split
  · rw [gpio_release_ae]
  · rfl

theorem gpio_open_dir_ae (env : Env) (pin : gpio) (n : Int) (d : String) :
    (gpio_open_dir env pin n d).pin.already_exported = pin.already_exported := by
  simp only [gpio_open_dir]
  split
  · split
    · rfl
    · exact gpio_open_value_ae env pin n
  · exact gpio_open_value_ae env pin n

theorem gpio_open_cont_ae (env : Env) (pin : gpio) (n : Int) (dir : String) :
    (gpio_open_cont env pin n dir).pin.already_exported = pin.already_exported := by
  simp only [gpio_open_cont]
  split
  · rw [gpio_open_dir_ae]
  · split
    · rw [gpio_open_dir_ae]
    · rfl

theorem gpio_release_filter_export (env : Env) (pin : gpio) :
    (gpio_release env pin).trace.filter isExportWrite = [] := by
  simp only [gpio_release]
  split
  · rfl
  · split <;> split <;> simp [sysfs_snd, isExportWrite]

theorem gpio_release_filter_config (env : Env) (pin : gpio) :
    (gpio_release env pin).trace.filter isConfigAccess = [] := by
  simp only [gpio_release]
  split
  · rfl
  · split <;> split <;> simp [sysfs_snd, isConfigAccess]

theorem gpio_open_value_filter_export (env : Env) (pin : gpio) (n : Int) :
    (gpio_open_value env pin n).trace.filter isExportWrite = [] := by
  simp only [gpio_open_value]
  split
  · simp [isExportWrite, gpio_release_filter_export]
  · simp [isExportWrite]

theorem gpio_open_dir_filter_export (env : Env) (pin : gpio) (n : Int) (d : String) :
    (gpio_open_dir env pin n d).trace.filter isExportWrite = [] := by
  simp only [gpio_open_dir]
  split
  · split
    · simp [sysfs_snd, isExportWrite]
    · simp [sysfs_snd, isExportWrite, gpio_open_value_filter_export]
  · exact gpio_open_value_filter_export env pin n

theorem gpio_open_cont_filter_export (env : Env) (pin : gpio) (n : Int) (dir : String) :
    (gpio_open_cont env pin n dir).trace.filter isExportWrite = [] := by
  simp only [gpio_open_cont]
  split
  · exact gpio_open_dir_filter_export env _ n "in"
  · split
    · exact gpio_open_dir_filter_export env _ n "out"
    · rfl

theorem open_rel_ae (env : Env) (pin0 : gpio) :
    (if pin0.state ≠ gpio_state.GPIO_CLOSED then gpio_release env pin0
      else ⟨pin0, 1, [], false⟩).pin.already_exported = pin0.already_exported := by
  split
  · exact gpio_release_ae env pin0
  · rfl

theorem open_rel_filter_export (env : Env) (pin0 : gpio) :
    (if pin0.state ≠ gpio_state.GPIO_CLOSED then gpio_release env pin0
      else ⟨pin0, 1, [], false⟩).trace.filter isExportWrite = [] := by
  split
  · exact gpio_release_filter_export env pin0
  · rfl

theorem open_rel_filter_config (env : Env) (pin0 : gpio) :
    (if pin0.state ≠ gpio_state.GPIO_CLOSED then gpio_release env pin0
      else ⟨pin0, 1, [], false⟩).trace.filter isConfigAccess = [] := by
  split
  · exact gpio_release_filter_config env pin0
  · rfl

/-- C5 counterexample: a closed pin whose `already_exported` flag is
still 1 from a previous lifetime (last conjunct shows it is reached by
an open-then-release of a pin whose value file existed).  Opening pin 5
whose value file does not exist, with the export write failing, aborts
the open *before* the line `pin->already_exported = 0`, so `ownsExport`
is false even though the value file was absent — the claim says it
becomes true. -/
theorem c5_ownsExport_counterexample :
    envExportFails.value_exists 5 = false
    ∧ (gpio_open envExportFails pinPrevExported 5 "input").ret = -1
    ∧ ownsExport (gpio_open envExportFails pinPrevExported 5 "input").pin = false
    ∧ (gpio_release envAllOk (gpio_open envAllOk gpio_init 5 "input").pin).pin
        = pinPrevExported :=
  ⟨rfl, rfl, rfl, rfl⟩

/-- C5 amended: when the pin's value file does not exist, the write of
the pin number to the export file is the first access `open` makes to
any pin-configuration control file (only the descriptor close and
best-effort unexport write of the implicit release of a previously open
pin can precede it), and `ownsExport` becomes true provided the export
write succeeds — if it fails, open aborts with -1 and the flag keeps
its previous value.  When the value file exists, `ownsExport` becomes
false and no export write occurs at all. -/
theorem c5_amended (env : Env) (pin : gpio) (n : Int) (dir : String) :
    (env.value_exists n = false →
      ((gpio_open env pin n dir).trace.filter isConfigAccess).head?
          = some (Event.writeFile SysPath.export (toString n))
      ∧ ((sysfs_write_file env SysPath.export (toString n)).1 ≠ 0 →
          ownsExport (gpio_open env pin n dir).pin = true)
      ∧ ((sysfs_write_file env SysPath.export (toString n)).1 = 0 →
          (gpio_open env pin n dir).pin.already_exported = pin.already_exported
          ∧ (gpio_open env pin n dir).ret = -1))
    ∧ (env.value_exists n = true →
        ownsExport (gpio_open env pin n dir).pin = false
        ∧ (gpio_open env pin n dir).trace.filter isExportWrite = []) := by
  constructor
  · intro hv
    simp only [gpio_open]
    rw [if_pos hv]
    by_cases hw : (sysfs_write_file env SysPath.export (toString n)).1 = 0
    · rw [if_pos hw]
      refine ⟨?_, ?_, ?_⟩
      · show ((_ ++ (sysfs_write_file env SysPath.export (toString n)).2).filter
            isConfigAccess).head? = _
        rw [List.filter_append, open_rel_filter_config, sysfs_snd]
        simp [isConfigAccess]
      · intro hok
        exact absurd hw hok
      · intro _
        exact ⟨open_rel_ae env pin, rfl⟩
    · rw [if_neg hw]
      refine ⟨?_, ?_, ?_⟩
      · show (((_ ++ (sysfs_write_file env SysPath.export (toString n)).2 ++ _)).filter
            isConfigAccess).head? = _
        rw [List.filter_append, List.filter_append, open_rel_filter_config, sysfs_snd]
        simp [isConfigAccess]
      · intro _
        simp [ownsExport, gpio_open_cont_ae]
      · intro h0
        exact absurd h0 hw
  · intro hv
    simp only [gpio_open]
    rw [if_neg (by simp [hv])]
    constructor
    · simp [ownsExport, gpio_open_cont_ae]
    · rw [List.filter_append, open_rel_filter_export, gpio_open_cont_filter_export]
      rfl

/-- Witness for C5: opening pin 4 as output when no value file exists
and all writes succeed — the first configuration-file access is the
export write of "4", and `ownsExport` ends up true. -/
theorem c5_witness :
    ((gpio_open envNoValueOk gpio_init 4 "output").trace.filter isConfigAccess).head?
      = some (Event.writeFile SysPath.export (toString (4 : Int)))
    ∧ ownsExport (gpio_open envNoValueOk gpio_init 4 "output").pin = true := by
  have h := (c5_amended envNoValueOk gpio_init 4 "output").1 (by decide)
  exact ⟨h.1, h.2.1 (by decide)⟩

-- C1: the descriptor/state invariant

theorem gpio_write_pin (env : Env) (pin : gpio) (v : Int) :
    (gpio_write env pin v).pin = pin := by
  unfold gpio_write
  split
  · rfl
  · split <;> split <;> rfl

theorem gpio_read_pin (env : Env) (pin : gpio) :
    (gpio_read env pin).pin = pin := by
  unfold gpio_read
  split
  · rfl
  · split <;> rfl

theorem gpio_process_pin (env : Env) (pin : gpio) :
    (gpio_process env pin).pin = pin := by
  simp only [gpio_process]
  split
  · exact gpio_read_pin env pin
  · split <;> exact gpio_read_pin env pin

theorem gpio_release_resets (env : Env) (pin : gpio) (h : pin.state ≠ gpio_state.GPIO_CLOSED) :
    (gpio_release env pin).pin.state = gpio_state.GPIO_CLOSED
    ∧ (gpio_release env pin).pin.fd = -1 := by
  unfold gpio_release
  rw [if_neg h]
  split <;> split <;> exact ⟨rfl, rfl⟩

theorem inv_release (env : Env) (pin : gpio) (h : gpio_inv pin) :
    gpio_inv (gpio_release env pin).pin := by
  by_cases hc : pin.state = gpio_state.GPIO_CLOSED
  · unfold gpio_release
    rw [if_pos hc]
    exact h
  · have h2 := gpio_release_resets env pin hc
    unfold gpio_inv
    rw [h2.1, h2.2]
    simp

theorem inv_release_strong (env : Env) (p : gpio)
    (h : p.state ≠ gpio_state.GPIO_CLOSED) :
    gpio_inv (gpio_release env p).pin := by
  have h2 := gpio_release_resets env p h
  unfold gpio_inv
  rw [h2.1, h2.2]
  simp

theorem inv_open_value (env : Env) (pin : gpio) (n : Int)
    (h : pin.state ≠ gpio_state.GPIO_CLOSED) :
    gpio_inv (gpio_open_value env pin n).pin := by
  simp only [gpio_open_value]
  split
  case isTrue hfd =>
    exact inv_release_strong env _ h
  case isFalse hfd =>
    unfold gpio_inv
    constructor
    · intro _
      exact h
    · intro _
      exact le_of_not_lt hfd

theorem inv_open_dir (env : Env) (pin : gpio) (n : Int) (d : String)
    (h : pin.state ≠ gpio_state.GPIO_CLOSED)
    (hx : ¬(env.direction_exists n = true
            ∧ (sysfs_write_file env (SysPath.direction n) d).1 = 0)) :
    gpio_inv (gpio_open_dir env pin n d).pin := by
  simp only [gpio_open_dir]
  split
  case isTrue hde =>
    split
    case isTrue hw => exact absurd ⟨hde, hw⟩ hx
    case isFalse hw => exact inv_open_value env pin n h
  case isFalse hde => exact inv_open_value env pin n h

theorem inv_open_cont (env : Env) (pin : gpio) (n : Int) (dir : String)
    (h : gpio_inv pin) (hx : ¬ dir_write_breaks env n dir) :
    gpio_inv (gpio_open_cont env pin n dir).pin := by
  simp only [gpio_open_cont]
  split
  case isTrue hdir =>
    refine inv_open_dir env _ n "in" (by simp) ?_
    rintro ⟨hde, hw⟩
    refine hx ⟨Or.inl hdir, hde, ?_⟩
    rw [if_pos hdir]
    exact hw
  case isFalse hdir =>
    split
    case isTrue hdir2 =>
      refine inv_open_dir env _ n "out" (by simp) ?_
      rintro ⟨hde, hw⟩
      refine hx ⟨Or.inr hdir2, hde, ?_⟩
      rw [if_neg hdir]
      exact hw
    case isFalse => exact h

/-- C1 counterexample: starting from the initial (Closed) pin in an
environment where the value and direction files of pin 4 exist but the
direction-file write fails, `gpio_open(pin, 4, "output")` returns -1
and leaves `state = GPIO_OUTPUT` with `fd = -1`: the state is not
Closed yet no value descriptor is open, so the invariant — which the
claim asserts precisely for this direction-write-failure case — does
not hold after the operation returns. -/
theorem c1_counterexample :
    (gpio_open envDirWriteFails gpio_init 4 "output").ret = -1
    ∧ (gpio_open envDirWriteFails gpio_init 4 "output").pin.state = gpio_state.GPIO_OUTPUT
    ∧ (gpio_open envDirWriteFails gpio_init 4 "output").pin.fd = -1
    ∧ ¬ gpio_inv (gpio_open envDirWriteFails gpio_init 4 "output").pin := by
  refine ⟨rfl, rfl, rfl, ?_⟩
  decide

/-- C1 amended: starting from a pin satisfying the invariant, it still
holds after `release`, `write`, `read` and `process_interrupt`; after
`set_interrupt` provided the state was not Closed (from Closed, a
successful edge write would yield `GPIO_INPUT_WITH_INTERRUPTS` with no
descriptor); and after `open` unless the open fails at the
direction-file write — a valid direction whose direction file exists
but cannot be written (the case of the counterexample) leaves the
already-stored Input/Output state with no open descriptor. -/
theorem c1_amended (env : Env) (pin : gpio) (n v : Int) (dir mode : String)
    (h : gpio_inv pin) :
    gpio_inv (gpio_release env pin).pin
    ∧ gpio_inv (gpio_write env pin v).pin
    ∧ gpio_inv (gpio_read env pin).pin
    ∧ gpio_inv (gpio_process env pin).pin
    ∧ (pin.state ≠ gpio_state.GPIO_CLOSED → gpio_inv (gpio_set_int env pin mode).pin)
    ∧ (¬ dir_write_breaks env n dir → gpio_inv (gpio_open env pin n dir).pin) := by
  refine ⟨inv_release env pin h, ?_, ?_, ?_, ?_, ?_⟩
  · rw [gpio_write_pin]
    exact h
  · rw [gpio_read_pin]
    exact h
  · rw [gpio_process_pin]
    exact h
  · intro hs
    simp only [gpio_set_int]
    split
    · exact h
    · have hfd : 0 ≤ pin.fd := h.mpr hs
      unfold gpio_inv
      simp [hfd]
  · intro hx
    have hrel : gpio_inv (if pin.state ≠ gpio_state.GPIO_CLOSED then gpio_release env pin
        else ⟨pin, 1, [], false⟩).pin := by
      split
      · exact inv_release env pin h
      · exact h
    simp only [gpio_open]
    split
    · split
      · exact hrel
      · exact inv_open_cont env _ n dir hrel hx
    · exact inv_open_cont env _ n dir hrel hx

/-- Witness for C1 at a concrete Input pin satisfying the invariant:
it is preserved by release, by set_interrupt, and by a re-open as
input in an all-succeeding environment. -/
theorem c1_witness :
    gpio_inv (gpio_release envAllOk pinInput).pin
    ∧ gpio_inv (gpio_set_int envAllOk pinInput "rising").pin
    ∧ gpio_inv (gpio_open envAllOk pinInput 5 "input").pin := by
  have h := c1_amended envAllOk pinInput 5 1 "input" "rising" (by decide)
  exact ⟨h.1, h.2.2.2.2.1 (by decide), h.2.2.2.2.2 (by decide)⟩

end ErlangAle
